import Mathlib

/-!
Shallow embedding of the message codec of `soil_moisture_common`
(src/messages.h, src/messages.cc, latest revision).

Modelling conventions:
* C unsigned integers are `Nat`; the signed `int16_t` temperature is `Int`.
  The code performs no arithmetic on the fields, so overflow wrapping only
  appears where the code narrows a value on assignment (noted in place).
* Each wire structure is a Lean structure with the fields of the C struct.
  The `MessageType type` field is a `Nat` holding the enum's underlying
  integer value: a received buffer may carry any tag value.
* A C `build_*` function receives caller storage by pointer and assigns
  some fields; it is modelled as a function from the previous structure
  value to the new one, so fields the code never assigns keep the caller's
  bytes.
* A C `parse_*` function receives one nullable output pointer per logical
  field.  A slot is modelled as an `Option`: `none` is a NULL pointer,
  `some v` a pointer to a variable currently holding `v`.  The function
  returns the C `bool` together with the final contents of every slot, so
  "the slot was not written" is `= the input option`.
* `snprintf` rendering is modelled by executable string builders that
  follow the exact conversions the format strings use (`%u`, `%s`,
  `%16llx`), including the truncation to the destination buffer size.
-/

namespace SoilMsg

/-! ## MessageType (src/messages.h lines 21-34) -/

/-- `join_request = 1` in `enum MessageType`. -/
def join_request : Nat := 1

/-- `join_response = 2` in `enum MessageType`. -/
def join_response : Nat := 2

/-- `time_request = 3` in `enum MessageType`. -/
def time_request : Nat := 3

/-- `time_response = 4` in `enum MessageType`. -/
def time_response : Nat := 4

/-- `data_message = 10` in `enum MessageType`. -/
def data_message : Nat := 10

/-- `text = 11` in `enum MessageType`. -/
def text : Nat := 11

/-- `data_packet = 12` in `enum MessageType` (legacy tag). -/
def data_packet : Nat := 12

/-- The closed set of tag values enumerated by `enum MessageType`
(src/messages.h lines 21-34), legacy `data_packet` included. -/
def messageTypeValues : List Nat :=
  [join_request, join_response, time_request, time_response, data_message, text, data_packet]

/-- `get_message_type_string` (src/messages.cc lines 29-51): a `switch` on
the tag with cases for the four handshake kinds, `data_message` and `text`;
every other value (the `error = 5` case is compiled out by `#if 0`, and
`data_packet` has no case) falls to `default` and yields `"unknown"`. -/
def get_message_type_string (t : Nat) : String :=
  if t = join_request then "join request"
  else if t = join_response then "join response"
  else if t = time_request then "time request"
  else if t = time_response then "time response"
  else if t = data_message then "data message"
  else if t = text then "text"
  else "unknown"

/-! ## Wire structures (src/messages.h) -/

/-- `struct join_request_t` (src/messages.h lines 48-51). -/
structure join_request_t where
  type : Nat
  dev_eui : Nat
  deriving Repr, DecidableEq

/-- `struct join_response_t` (src/messages.h lines 65-70):
tag, `node` (From), `leaf_node` (TO), `time`. -/
structure join_response_t where
  type : Nat
  node : Nat
  leaf_node : Nat
  time : Nat
  deriving Repr, DecidableEq

/-- `struct time_request_t` (src/messages.h lines 78-81). -/
structure time_request_t where
  type : Nat
  node : Nat
  deriving Repr, DecidableEq

/-- `struct time_response_t` (src/messages.h lines 89-93). -/
structure time_response_t where
  type : Nat
  node : Nat
  time : Nat
  deriving Repr, DecidableEq

/-- `TEXT_BUF_LEN = RH_RF95_MAX_MESSAGE_LEN - sizeof(MessageType) -
sizeof(uint8_t) - sizeof(uint8_t)` (src/messages.h line 95) with
`RH_RF95_MAX_MESSAGE_LEN = 251` and the enum's underlying type `int`
occupying 4 bytes on the 32-bit targets: `251 - 4 - 1 - 1 = 245`. -/
def TEXT_BUF_LEN : Nat := 251 - 4 - 1 - 1

/-- `struct text_t` (src/messages.h lines 97-102).  `node` is declared
`uint32_t` in the struct (the builder only receives a `uint8_t`);
`buf` is `uint8_t[TEXT_BUF_LEN]`, modelled as a byte list whose length is
the fixed capacity. -/
structure text_t where
  type : Nat
  node : Nat
  length : Nat
  buf : List Nat
  deriving Repr, DecidableEq

/-- `struct data_message_t` (src/messages.h lines 127-137). -/
structure data_message_t where
  type : Nat
  node : Nat
  message : Nat
  time : Nat
  battery : Nat
  last_tx_duration : Nat
  temp : Int
  humidity : Nat
  status : Nat
  deriving Repr, DecidableEq

/-! ## Join request codec (src/messages.cc lines 63-106) -/

/-- `build_join_request` (src/messages.cc lines 63-66): sets `type` and
`dev_eui`, leaving nothing else (the struct has no other field). -/
def build_join_request (jr : join_request_t) (dev_eui : Nat) : join_request_t :=
  { jr with type := join_request, dev_eui := dev_eui }

/-- `parse_join_request` (src/messages.cc lines 73-81): fails when the tag
differs from `join_request`, otherwise writes the `dev_eui` slot if
present. -/
def parse_join_request (data : join_request_t) (dev_eui : Option Nat) :
    Bool × Option Nat :=
  if data.type ≠ join_request then (false, dev_eui)
  else (true, dev_eui.map fun _ => data.dev_eui)

/-- One hexadecimal digit as `printf %x` renders it (lowercase). -/
def hexDigitChar (n : Nat) : Char :=
  if n < 10 then Char.ofNat (48 + n) else Char.ofNat (87 + n)

/-- Hex digits of `n`, most significant first, no leading zeros; the first
argument is fuel (64 suffices for every 64-bit value). -/
def hexDigits : Nat → Nat → List Char
  | 0, _ => []
  | fuel + 1, n => if n = 0 then [] else hexDigits fuel (n / 16) ++ [hexDigitChar (n % 16)]

/-- `printf "%llx"` of a nonnegative value: lowercase hex, `"0"` for zero. -/
def hexString (n : Nat) : String :=
  if n = 0 then "0" else String.mk (hexDigits 64 n)

/-- Decimal digits of `n`, most significant first; fuel-driven. -/
def decDigits : Nat → Nat → List Char
  | 0, _ => []
  | fuel + 1, n => if n = 0 then [] else decDigits fuel (n / 10) ++ [Char.ofNat (48 + n % 10)]

/-- `printf "%u"` / `"%lu"` of a nonnegative value. -/
def decString (n : Nat) : String :=
  if n = 0 then "0" else String.mk (decDigits 32 n)

/-- `printf "%16llx"`: the hex conversion right-aligned in a field of
width 16, padded with spaces (no `0` flag in the source format string). -/
def hexWidth16 (n : Nat) : String :=
  String.mk (List.replicate (16 - (hexString n).length) ' ') ++ hexString n

/-- `snprintf(dst, size, ...)` keeps at most `size - 1` characters. -/
def snprintfTrunc (size : Nat) (s : String) : String :=
  String.mk (s.data.take (size - 1))

/-- `join_request_to_string` (src/messages.cc lines 91-106).  The local
`dev_eui` is uninitialized stack storage (modelled by `g`); the function
ignores `parse_join_request`'s return value, so on a tag mismatch the
garbage value is printed.  `get_message_type((void*)jr)` reads the leading
tag field.  Both branches print the EUI with `"0x%16llx"` into a 64-byte
buffer. -/
def join_request_to_string (jr : join_request_t) (pretty : Bool) (g : Nat) : String :=
  let dev_eui := ((parse_join_request jr (some g)).2).getD g
  let kindName := get_message_type_string jr.type
  let body :=
    if pretty then "type: " ++ kindName ++ ", device EUI: 0x" ++ hexWidth16 dev_eui
    else kindName ++ ", 0x" ++ hexWidth16 dev_eui
  snprintfTrunc 64 body

/-! ## Join response codec (src/messages.cc lines 123-140) -/

/-- `build_join_response` (src/messages.cc lines 123-127): assigns `type`,
`node` and `time`; the struct's `leaf_node` field is never written and
keeps the caller's bytes. -/
def build_join_response (jr : join_response_t) (node : Nat) (time : Nat) : join_response_t :=
  { jr with type := join_response, node := node, time := time }

/-- `parse_join_response` (src/messages.cc lines 130-140).  The source
tests `data->type != join_request` — the `join_request` tag, not
`join_response` — and on that (mis)match writes the `node` and `time`
slots when present. -/
def parse_join_response (data : join_response_t) (node : Option Nat) (time : Option Nat) :
    Bool × Option Nat × Option Nat :=
  if data.type ≠ join_request then (false, node, time)
  else (true, node.map fun _ => data.node, time.map fun _ => data.time)

/-- A C caller holding the bytes of a `join_request_t` and handing them to
`parse_join_response` does so by pointer cast; this is that
reinterpretation at the 32-bit target's layout (little-endian, 4-byte
enum).  `join_request_t` is tag at offset 0, 4 bytes of padding, `dev_eui`
at offset 8; `join_response_t` is tag at offset 0, `node` at 4, `leaf_node`
at 5, 2 bytes of padding, `time` at 8.  So the tag is shared, `node` and
`leaf_node` land in the request's padding (indeterminate bytes, passed in
as `pad1`, `pad2`) and `time` overlaps the low 32 bits of `dev_eui`. -/
def join_request_as_join_response (jr : join_request_t) (pad1 pad2 : Nat) : join_response_t :=
  { type := jr.type, node := pad1, leaf_node := pad2, time := jr.dev_eui % 2 ^ 32 }

/-! ## Time request codec (src/messages.cc lines 166-184) -/

/-- `build_time_request` (src/messages.cc lines 166-169). -/
def build_time_request (tr : time_request_t) (node : Nat) : time_request_t :=
  { tr with type := time_request, node := node }

/-- `parse_time_request` (src/messages.cc lines 176-184). -/
def parse_time_request (data : time_request_t) (node : Option Nat) :
    Bool × Option Nat :=
  if data.type ≠ time_request then (false, node)
  else (true, node.map fun _ => data.node)

/-! ## Time response codec (src/messages.cc lines 224-240) -/

/-- `build_time_response` (src/messages.cc lines 224-228). -/
def build_time_response (tr : time_response_t) (node : Nat) (time : Nat) : time_response_t :=
  { tr with type := time_response, node := node, time := time }

/-- `parse_time_response` (src/messages.cc lines 230-240). -/
def parse_time_response (data : time_response_t) (node : Option Nat) (time : Option Nat) :
    Bool × Option Nat × Option Nat :=
  if data.type ≠ time_response then (false, node, time)
  else (true, node.map fun _ => data.node, time.map fun _ => data.time)

/-! ## Text codec (src/messages.cc lines 273-309) -/

/-- `build_text_message` (src/messages.cc lines 273-278): assigns `type`,
`node` and the raw `length`, then
`memcpy(t->buf, buf, (length < TEXT_BUF_LEN) ? length : TEXT_BUF_LEN)`:
the copy count is clamped, the stored `length` field is not.  Bytes of
`t->buf` past the copy count keep the caller's previous storage. -/
def build_text_message (t : text_t) (node : Nat) (length : Nat) (buf : List Nat) : text_t :=
  let count := if length < TEXT_BUF_LEN then length else TEXT_BUF_LEN
  { t with type := text, node := node, length := length,
           buf := buf.take count ++ t.buf.drop count }

/-- `parse_text_message` (src/messages.cc lines 280-292).  `*node =
data->node` narrows the struct's `uint32_t` to the caller's `uint8_t`
(mod 256).  The byte copy runs only under `if (length && buf)`: with a
NULL `length` slot the `buf` slot is never written; its count is
`(*length < TEXT_BUF_LEN) ? *length : TEXT_BUF_LEN` where `*length` has
just been set to `data->length`. -/
def parse_text_message (data : text_t) (node : Option Nat) (length : Option Nat)
    (buf : Option (List Nat)) : Bool × Option Nat × Option Nat × Option (List Nat) :=
  if data.type ≠ text then (false, node, length, buf)
  else
    let count := if data.length < TEXT_BUF_LEN then data.length else TEXT_BUF_LEN
    let node' := node.map fun _ => data.node % 256
    let length' := length.map fun _ => data.length
    let buf' :=
      if length.isSome && buf.isSome then
        buf.map fun old => data.buf.take count ++ old.drop count
      else buf
    (true, node', length', buf')

/-- `printf %s` applied to a byte array: characters up to the first NUL
byte.  When the array holds no NUL at all the read continues past the
array's end into undefined memory; that case is `none`. -/
def cStringBytes (l : List Nat) : Option (List Nat) :=
  if l.any (· = 0) then some (l.takeWhile (· ≠ 0)) else none

/-- `text_message_to_string` (src/messages.cc lines 294-309).  It calls
`parse_text_message(t, &node, &length, msg)` into locals — so `node` holds
`t->node` narrowed to `uint8_t` when the tag matches and stack garbage
(`g`) otherwise — but then prints `t->buf` itself with `%s`, never the
clamped local `msg` and never consulting `length`: the `%s` read stops at
the first NUL byte of `buf` wherever it is, and runs off the end of `buf`
(undefined behaviour, `none` here) when `buf` has none.  The destination
buffer holds `TEXT_BUF_LEN + 20` bytes. -/
def text_message_to_string (t : text_t) (pretty : Bool) (g : Nat) : Option String :=
  let node := if t.type = text then t.node % 256 else g
  match cStringBytes t.buf with
  | none => none
  | some payload =>
      let payloadStr := String.mk (payload.map Char.ofNat)
      let body :=
        if pretty then "node: " ++ decString node ++ ", message: " ++ payloadStr
        else decString node ++ ", " ++ payloadStr
      some (snprintfTrunc (TEXT_BUF_LEN + 20) body)

/-! ## Data message codec (src/messages.cc lines 325-381) -/

/-- `build_data_message` (src/messages.cc lines 325-337). -/
def build_data_message (data : data_message_t) (node : Nat) (message : Nat) (time : Nat)
    (battery : Nat) (last_tx_duration : Nat) (temp : Int) (humidity : Nat) (status : Nat) :
    data_message_t :=
  { data with type := data_message, node := node, message := message, time := time,
              battery := battery, last_tx_duration := last_tx_duration, temp := temp,
              humidity := humidity, status := status }

/-- The eight nullable output pointers of `parse_data_message`, one slot
per logical field. -/
structure data_message_slots where
  node : Option Nat
  message : Option Nat
  time : Option Nat
  battery : Option Nat
  last_tx_duration : Option Nat
  temp : Option Int
  humidity : Option Nat
  status : Option Nat
  deriving Repr, DecidableEq

/-- `parse_data_message` (src/messages.cc lines 351-381): fails on any tag
other than `data_message`; otherwise each non-NULL slot independently
receives its field. -/
def parse_data_message (data : data_message_t) (s : data_message_slots) :
    Bool × data_message_slots :=
  if data.type ≠ data_message then (false, s)
  else
    (true,
     { node := s.node.map fun _ => data.node,
       message := s.message.map fun _ => data.message,
       time := s.time.map fun _ => data.time,
       battery := s.battery.map fun _ => data.battery,
       last_tx_duration := s.last_tx_duration.map fun _ => data.last_tx_duration,
       temp := s.temp.map fun _ => data.temp,
       humidity := s.humidity.map fun _ => data.humidity,
       status := s.status.map fun _ => data.status })

end SoilMsg

namespace SoilMsg

/-! ## Theorems -/

/-- C1: the round-trip `parse(build(fields)) == fields` is claimed for every
message kind; it fails for `join_response`.  `build_join_response` stores the
tag `join_response` (2) but `parse_join_response` tests the tag against
`join_request` (1), so parsing a freshly built join response returns `false`
and writes no slot. -/
theorem join_response_round_trip_fails :
    parse_join_response (build_join_response ⟨0, 0, 0, 0⟩ 1 0) (some 0) (some 0)
      = (false, some 0, some 0) := by decide

/-- C2: `parse_join_response` is claimed to fail exactly when the tag is not
`join_response` (2).  In the code it fails exactly when the tag is not
`join_request` (1): on a structure whose tag is `join_response` it returns
`false`, and on a structure whose tag is `join_request` it returns `true`. -/
theorem parse_join_response_tag_check_inverted :
    parse_join_response ⟨join_response, 5, 0, 99⟩ (some 0) (some 0) = (false, some 0, some 0) ∧
    (parse_join_response ⟨join_request, 5, 0, 99⟩ (some 0) (some 0)).1 = true := by decide

/-- C3: `parse_X` on a buffer built as a different kind `Y` is claimed to
always fail and never write a slot.  For `X = join_response`,
`Y = join_request` the code does the opposite: a buffer written by
`build_join_request` carries tag `join_request` (1), which is exactly the
tag `parse_join_response` tests for, so the call returns `true` and
overwrites both output slots (with a padding byte and the low 32 bits of
the EUI, at the 32-bit layout of `join_request_as_join_response`). -/
theorem parse_join_response_accepts_built_join_request :
    parse_join_response
        (join_request_as_join_response (build_join_request ⟨0, 0⟩ 0x0102030405060708) 0xAA 0xBB)
        (some 0) (some 0)
      = (true, some 0xAA, some 0x05060708) := by decide

/-- C4: `build_text_message` copies exactly `min(length, TEXT_BUF_LEN)` bytes
into `buf` (later bytes keep the caller's storage), never reads more than the
source's `TEXT_BUF_LEN` bytes, never grows `buf` past its capacity, and copies
nothing when `length = 0`; on success `parse_text_message` symmetrically
copies out `min(stored length, TEXT_BUF_LEN)` bytes, and nothing when the
stored length is 0. -/
theorem text_message_clamped_copy (t : text_t) (node len : Nat) (src : List Nat)
    (hbuf : t.buf.length = TEXT_BUF_LEN) (hsrc : src.length = TEXT_BUF_LEN) :
    (build_text_message t node len src).buf
        = src.take (min len TEXT_BUF_LEN) ++ t.buf.drop (min len TEXT_BUF_LEN) ∧
    (build_text_message t node len src).buf.length = TEXT_BUF_LEN ∧
    min len TEXT_BUF_LEN ≤ src.length ∧
    (len = 0 → (build_text_message t node len src).buf = t.buf) ∧
    (∀ (old : List Nat) (n g : Nat),
        (parse_text_message (build_text_message t node len src) (some n) (some g) (some old)).2.2.2
          = some ((build_text_message t node len src).buf.take (min len TEXT_BUF_LEN)
              ++ old.drop (min len TEXT_BUF_LEN))) ∧
    (len = 0 → ∀ (old : List Nat) (n g : Nat),
        (parse_text_message (build_text_message t node len src) (some n) (some g) (some old)).2.2.2
          = some old) := by
  have hk : (if len < TEXT_BUF_LEN then len else TEXT_BUF_LEN) = min len TEXT_BUF_LEN := by
    split <;> omega
  refine ⟨?_, ?_, ?_, ?_, ?_, ?_⟩
  · simp [build_text_message, hk]
  · simp [build_text_message, hk, hbuf, hsrc]
  · omega
  · intro h0
    subst h0
    simp [build_text_message, TEXT_BUF_LEN]
  · intro old n g
    simp [parse_text_message, build_text_message, text, hk]
  · intro h0 old n g
    subst h0
    simp [parse_text_message, build_text_message, text, hk]

set_option maxRecDepth 8000 in
/-- Witness for C4 at `t` all-zero, `node = 1`, `len = 3`,
`src = List.replicate 245 7`. -/
theorem text_message_clamped_copy_witness :
    ((⟨0, 0, 0, List.replicate 245 0⟩ : text_t).buf.length = TEXT_BUF_LEN ∧
     (List.replicate 245 (7 : Nat)).length = TEXT_BUF_LEN) ∧
    ((build_text_message ⟨0, 0, 0, List.replicate 245 0⟩ 1 3 (List.replicate 245 7)).buf
        = (List.replicate 245 (7 : Nat)).take (min 3 TEXT_BUF_LEN)
            ++ (⟨0, 0, 0, List.replicate 245 0⟩ : text_t).buf.drop (min 3 TEXT_BUF_LEN) ∧
     (build_text_message ⟨0, 0, 0, List.replicate 245 0⟩ 1 3 (List.replicate 245 7)).buf.length
        = TEXT_BUF_LEN ∧
     min 3 TEXT_BUF_LEN ≤ (List.replicate 245 (7 : Nat)).length ∧
     (3 = 0 → (build_text_message ⟨0, 0, 0, List.replicate 245 0⟩ 1 3 (List.replicate 245 7)).buf
        = (⟨0, 0, 0, List.replicate 245 0⟩ : text_t).buf) ∧
     (∀ (old : List Nat) (n g : Nat),
        (parse_text_message (build_text_message ⟨0, 0, 0, List.replicate 245 0⟩ 1 3 (List.replicate 245 7))
            (some n) (some g) (some old)).2.2.2
          = some ((build_text_message ⟨0, 0, 0, List.replicate 245 0⟩ 1 3 (List.replicate 245 7)).buf.take
                (min 3 TEXT_BUF_LEN)
              ++ old.drop (min 3 TEXT_BUF_LEN))) ∧
     (3 = 0 → ∀ (old : List Nat) (n g : Nat),
        (parse_text_message (build_text_message ⟨0, 0, 0, List.replicate 245 0⟩ 1 3 (List.replicate 245 7))
            (some n) (some g) (some old)).2.2.2
          = some old)) :=
  ⟨⟨by decide, by decide⟩,
   text_message_clamped_copy ⟨0, 0, 0, List.replicate 245 0⟩ 1 3 (List.replicate 245 7)
     (by decide) (by decide)⟩

/-- C5 counterexample: `build_text_message` stores the raw `length`
argument, so building with `length = 246 > TEXT_BUF_LEN` yields a `text_t`
whose stored `length` field exceeds the capacity of `buf`, refuting the
claim that every built structure satisfies `length ≤ TEXT_BUF_LEN`. -/
theorem build_text_message_length_unclamped :
    (build_text_message ⟨0, 0, 0, List.replicate 245 0⟩ 0 246 (List.replicate 245 1)).length
        = 246 ∧
    ¬ (build_text_message ⟨0, 0, 0, List.replicate 245 0⟩ 0 246 (List.replicate 245 1)).length
        ≤ TEXT_BUF_LEN := by
  constructor
  · rfl
  · decide

/-- C5 amended: `build_text_message` stores the `length` argument verbatim,
so the invariant `length ≤ TEXT_BUF_LEN` holds exactly for arguments that
already satisfy it; the bytes copied into `buf` are clamped to the capacity
regardless, so `buf` itself never grows. -/
theorem build_text_message_length_raw (t : text_t) (node len : Nat) (src : List Nat) :
    (build_text_message t node len src).length = len ∧
    (len ≤ TEXT_BUF_LEN → (build_text_message t node len src).length ≤ TEXT_BUF_LEN) ∧
    (t.buf.length = TEXT_BUF_LEN → src.length = TEXT_BUF_LEN →
        (build_text_message t node len src).buf.length = TEXT_BUF_LEN) := by
  refine ⟨rfl, fun h => h, fun hbuf hsrc => ?_⟩
  have hk : (if len < TEXT_BUF_LEN then len else TEXT_BUF_LEN) = min len TEXT_BUF_LEN := by
    split <;> omega
  simp [build_text_message, hk, hbuf, hsrc]

set_option maxRecDepth 8000 in
/-- C6 counterexample: on a successfully parsed text message with a non-null
`buf` slot but a NULL `length` slot, `parse_text_message` leaves `buf`
untouched (the guard `if (length && buf)` is false), although the message's
first payload byte is 66, not the 9 still sitting in the caller's buffer:
the non-null `buf` slot does not receive the payload when `length` is
absent. -/
theorem parse_text_message_buf_requires_length :
    parse_text_message (build_text_message ⟨0, 0, 0, List.replicate 245 0⟩ 7 1 [66])
        (some 0) none (some (List.replicate 245 9))
      = (true, some 7, none, some (List.replicate 245 9)) ∧
    (build_text_message ⟨0, 0, 0, List.replicate 245 0⟩ 7 1 [66]).buf.take 1 = [66] := by
  constructor
  · decide
  · rfl

/-- C6 amended: no `parse_*` ever writes a NULL slot, and on a tag match
every non-null slot receives its structure field independently of the other
slots — with the one exception the code's `if (length && buf)` guard makes:
`parse_text_message` fills a non-null `buf` slot only when the `length`
slot is also non-null, and leaves `buf` untouched when `length` is NULL.
(For `parse_join_response` "tag match" is the `join_request` tag the
code actually tests.) -/
theorem parse_null_slot_safety :
    (∀ (d : join_request_t), (parse_join_request d none).2 = none) ∧
    (∀ (d : join_response_t) t, (parse_join_response d none t).2.1 = none) ∧
    (∀ (d : join_response_t) n, (parse_join_response d n none).2.2 = none) ∧
    (∀ (d : time_request_t), (parse_time_request d none).2 = none) ∧
    (∀ (d : time_response_t) t, (parse_time_response d none t).2.1 = none) ∧
    (∀ (d : time_response_t) n, (parse_time_response d n none).2.2 = none) ∧
    (∀ (d : text_t) l b, (parse_text_message d none l b).2.1 = none) ∧
    (∀ (d : text_t) n b, (parse_text_message d n none b).2.2.1 = none) ∧
    (∀ (d : text_t) n l, (parse_text_message d n l none).2.2.2 = none) ∧
    (∀ (d : data_message_t) s, s.node = none → (parse_data_message d s).2.node = none) ∧
    (∀ (d : join_request_t) g, d.type = join_request →
        (parse_join_request d (some g)).2 = some d.dev_eui) ∧
    (∀ (d : join_response_t) g t, d.type = join_request →
        (parse_join_response d (some g) t).2.1 = some d.node) ∧
    (∀ (d : join_response_t) n g, d.type = join_request →
        (parse_join_response d n (some g)).2.2 = some d.time) ∧
    (∀ (d : time_request_t) g, d.type = time_request →
        (parse_time_request d (some g)).2 = some d.node) ∧
    (∀ (d : time_response_t) g t, d.type = time_response →
        (parse_time_response d (some g) t).2.1 = some d.node) ∧
    (∀ (d : time_response_t) n g, d.type = time_response →
        (parse_time_response d n (some g)).2.2 = some d.time) ∧
    (∀ (d : text_t) g l b, d.type = text →
        (parse_text_message d (some g) l b).2.1 = some (d.node % 256)) ∧
    (∀ (d : text_t) n g b, d.type = text →
        (parse_text_message d n (some g) b).2.2.1 = some d.length) ∧
    (∀ (d : data_message_t) s, d.type = data_message →
        (parse_data_message d s).2
          = { node := s.node.map fun _ => d.node,
              message := s.message.map fun _ => d.message,
              time := s.time.map fun _ => d.time,
              battery := s.battery.map fun _ => d.battery,
              last_tx_duration := s.last_tx_duration.map fun _ => d.last_tx_duration,
              temp := s.temp.map fun _ => d.temp,
              humidity := s.humidity.map fun _ => d.humidity,
              status := s.status.map fun _ => d.status }) ∧
    (∀ (d : text_t) n old, d.type = text →
        (parse_text_message d n none (some old)).2.2.2 = some old) ∧
    (∀ (d : text_t) n g old, d.type = text →
        (parse_text_message d n (some g) (some old)).2.2.2
          = some (d.buf.take (min d.length TEXT_BUF_LEN)
              ++ old.drop (min d.length TEXT_BUF_LEN))) := by
  have hk : ∀ dl : Nat, (if dl < TEXT_BUF_LEN then dl else TEXT_BUF_LEN) = min dl TEXT_BUF_LEN := by
    intro dl; split <;> omega
  refine ⟨?_, ?_, ?_, ?_, ?_, ?_, ?_, ?_, ?_, ?_, ?_, ?_, ?_, ?_, ?_, ?_, ?_, ?_, ?_, ?_, ?_⟩ <;>
    intros <;>
    simp_all [parse_join_request, parse_join_response, parse_time_request,
      parse_time_response, parse_text_message, parse_data_message, hk] <;>
    split <;> simp_all

set_option maxRecDepth 8000 in
/-- C7: `text_message_to_string` passes `t->buf` itself to `%s`, so the
rendered payload runs to the first NUL byte of `buf` wherever that is.  On
a message built with stored `length = 1` whose caller storage left bytes
1..10 equal to 65 and byte 11 equal to 0, the output is `"7, BAAAAAAAAAA"`:
ten bytes beyond the stored length are read and printed, refuting "never
reading buf bytes beyond the stored length".  And when `buf` holds no NUL
byte at all the `%s` read leaves the 245-byte array entirely (undefined
behaviour, modelled as `none`). -/
theorem text_message_to_string_reads_past_length :
    (build_text_message ⟨0, 0, 0, List.replicate 11 65 ++ List.replicate 234 0⟩ 7 1 [66]).length
        = 1 ∧
    text_message_to_string
        (build_text_message ⟨0, 0, 0, List.replicate 11 65 ++ List.replicate 234 0⟩ 7 1 [66])
        false 0
      = some "7, BAAAAAAAAAA" ∧
    text_message_to_string (build_text_message ⟨0, 0, 0, List.replicate 245 65⟩ 7 1 [66])
        false 0
      = none := by
  refine ⟨rfl, by decide, by decide⟩

/-- C8 counterexample: the source renders the EUI with `"0x%16llx"`; the
15 hex digits of `0x0102030405060708` are space-padded on the left to the
field width 16, so the output is not the claimed
`"join request, 0x102030405060708"`. -/
theorem join_request_to_string_claimed_string_wrong :
    join_request_to_string (build_join_request ⟨0, 0⟩ 0x0102030405060708) false 0
      ≠ "join request, 0x102030405060708" := by decide

/-- C8 amended: building a join request with EUI `0x0102030405060708` and
rendering it non-pretty yields `"join request, 0x 102030405060708"` — the
hex digits without leading zeros, space-padded to the `%16llx` field width
of 16. -/
theorem join_request_to_string_scenario :
    join_request_to_string (build_join_request ⟨0, 0⟩ 0x0102030405060708) false 0
      = "join request, 0x 102030405060708" := by decide

/-- C9 counterexample: the legacy `data_packet` tag (12) belongs to the
closed `MessageType` enumeration, yet `get_message_type_string` has no
`case` for it and returns `"unknown"` — so `"unknown"` is not returned
exactly for values outside the closed set. -/
theorem get_message_type_string_data_packet_unknown :
    data_packet ∈ messageTypeValues ∧ get_message_type_string data_packet = "unknown" := by
  decide

/-- C9 amended: `get_message_type_string` returns a fixed kind-specific
name for each of the six active kinds, and the constant `"unknown"` for
every other tag value — the legacy `data_packet` (12) included, since the
switch has no case for it. -/
theorem get_message_type_string_names :
    get_message_type_string join_request = "join request" ∧
    get_message_type_string join_response = "join response" ∧
    get_message_type_string time_request = "time request" ∧
    get_message_type_string time_response = "time response" ∧
    get_message_type_string data_message = "data message" ∧
    get_message_type_string text = "text" ∧
    ∀ t : Nat, get_message_type_string t = "unknown" ↔
      t ∉ [join_request, join_response, time_request, time_response, data_message, text] := by
  refine ⟨rfl, rfl, rfl, rfl, rfl, rfl, ?_⟩
  intro t
  unfold get_message_type_string
  split_ifs <;> simp_all

/-- C10: `build_join_response` receives only `node` and `time` and never
assigns the structure's `leaf_node` field, which therefore keeps whatever
the caller's storage held; and `parse_join_response`'s result — return
value and both output slots — is entirely independent of `leaf_node`, so
the codec's public build/parse interface can neither set nor read that
field. -/
theorem join_response_leaf_node_unreachable :
    (∀ (jr : join_response_t) (node time : Nat),
        (build_join_response jr node time).leaf_node = jr.leaf_node) ∧
    (∀ (d : join_response_t) (x : Nat) (node time : Option Nat),
        parse_join_response { d with leaf_node := x } node time
          = parse_join_response d node time) := by
  constructor
  · intro jr node time
    rfl
  · intro d x node time
    simp [parse_join_response]
